import Mathlib

/-!
Verification development for the `llm_chat` repository.

The repository is a provider-agnostic chat front end over several LLM
backends.  We shallowly embed the parts of the source relevant to the
frozen claims:

* `files.py` — the image codec (`pil_to_base64`, `base64_to_pil`);
* `data.py` — the conversation data model and `ChatSession`
  save/load round trip;
* `llm/common.py` — the shared conversation-to-common-block conversion
  and the tenacity-based retry wrapper around `_call_api`;
* `llm/__init__.py` — the `get_llm` dispatcher, including its
  in-place mutation of the caller's `model_kwargs`;
* the concrete adapters (`llm/openai.py`, `llm/together.py`,
  `llm/anthropic.py`, `llm/gemini.py`, `llm/ollama.py`, `llm/hf.py`).

Machine floats (`temperature`) are modelled as rationals built with
`mkRat`; Python byte strings as `List Nat` with a `< 256` bound; Python
`str` values as Lean `String` with helper functions reproducing the
Python code-point semantics of slicing, `lstrip`/`rstrip`/`strip` and
`split` where the source uses them.
-/

/-! ## Python string helpers

Python strings are sequences of code points; Lean `String.data` gives the
same view.  The helpers below reproduce the exact Python operations used
by the source files. -/

/-- Python slicing `s[k:]` over code points. -/
def pySliceFrom (s : String) (k : Nat) : String :=
  ⟨s.data.drop k⟩

/-- Python `s.startswith(p)`. -/
def pyStartsWith (s p : String) : Bool :=
  p.data.isPrefixOf s.data

/-- Python `s.lstrip(chars)`: drop leading characters belonging to the
character SET `chars` (not the prefix string `chars`). -/
def pyLstripChars (s chars : String) : String :=
  ⟨s.data.dropWhile (fun c => chars.data.contains c)⟩

/-- Python `s.rstrip(chars)`: drop trailing characters belonging to the
character SET `chars` (not the suffix string `chars`). -/
def pyRstripChars (s chars : String) : String :=
  ⟨(s.data.reverse.dropWhile (fun c => chars.data.contains c)).reverse⟩

/-- Python `s.strip()` with no argument: trim whitespace from both ends. -/
def pyStripWhitespace (s : String) : String :=
  ⟨((s.data.dropWhile Char.isWhitespace).reverse.dropWhile Char.isWhitespace).reverse⟩

/-- Fuelled worker for Python `s.split(sep)` with a non-empty separator:
scan left to right, cutting at each occurrence of `sep`.  `acc` holds the
characters of the current field in order. -/
def pySplitGo (sep : List Char) : Nat → List Char → List Char → List (List Char)
  | 0, l, acc => [acc ++ l]
  | _ + 1, [], acc => [acc]
  | fuel + 1, c :: rest, acc =>
    if sep.isPrefixOf (c :: rest) then
      acc :: pySplitGo sep fuel ((c :: rest).drop sep.length) []
    else
      pySplitGo sep fuel rest (acc ++ [c])

/-- Python `s.split(sep)` for a non-empty separator `sep`. -/
def pySplit (s sep : String) : List String :=
  (pySplitGo sep.data (s.data.length + 1) s.data []).map fun l => ⟨l⟩

/-! ## `files.py` — the image codec

`pil_to_base64` saves a PIL image as JPEG bytes and base64-encodes them;
`base64_to_pil` base64-decodes a string and re-opens the bytes as an
image.  The base64 layer (`base64.b64encode` / `base64.b64decode`) is
embedded faithfully below, including the documented CPython behaviour of
`b64decode(validate=False)`: characters outside the base64 alphabet are
discarded prior to the padding check.  The JPEG byte stream produced by
PIL is treated as the in-memory content of an image; PIL's `Image.open`
is external to the repository and is modelled by its header check (a
JPEG stream starts with the bytes `FF D8 FF`). -/

/-- The standard base64 alphabet used by `base64.b64encode`. -/
def base64Alphabet : List Char :=
  ['A','B','C','D','E','F','G','H','I','J','K','L','M','N','O','P',
   'Q','R','S','T','U','V','W','X','Y','Z',
   'a','b','c','d','e','f','g','h','i','j','k','l','m','n','o','p',
   'q','r','s','t','u','v','w','x','y','z',
   '0','1','2','3','4','5','6','7','8','9','+','/']

/-- Character for a six-bit group. -/
def sextetToChar (n : Nat) : Char :=
  base64Alphabet.getD n 'A'

/-- Index of a character in the base64 alphabet, if any. -/
def charToSextet (c : Char) : Option Nat :=
  base64Alphabet.findIdx? (fun d => d = c)

/-- Membership in the base64 alphabet. -/
def isB64Char (c : Char) : Bool :=
  base64Alphabet.contains c

/-- Base64 encoding of a byte list, three bytes to four characters with
`=` padding, exactly as `base64.b64encode`. -/
def b64EncodeChunks : List Nat → List Char
  | a :: b :: c :: rest =>
    sextetToChar (a / 4) :: sextetToChar (a % 4 * 16 + b / 16) ::
    sextetToChar (b % 16 * 4 + c / 64) :: sextetToChar (c % 64) ::
    b64EncodeChunks rest
  | [a, b] =>
    [sextetToChar (a / 4), sextetToChar (a % 4 * 16 + b / 16),
     sextetToChar (b % 16 * 4), '=']
  | [a] =>
    [sextetToChar (a / 4), sextetToChar (a % 4 * 16), '=', '=']
  | [] => []

/-- The decode loop of CPython `binascii.a2b_base64` in lenient mode
(`base64.b64decode` with the default `validate=False`).  `qp` is the
position within the current four-character quad, `left` the bits carried
from the previous character, `pads` the count of padding characters seen
since the last data character, `acc` the bytes emitted so far.  A
character outside the base64 alphabet is discarded.  A `=` is ignored
unless at least two data characters of the current quad have been seen;
once padding completes a quad (`xx==` or `xxx=`) decoding stops
successfully, ignoring all remaining input.  Input ending with a partial
quad and no completed padding is a padding error. -/
def b64DecodeLoop : Nat → Nat → Nat → List Nat → List Char → Option (List Nat)
  | qp, _, _, acc, [] => if qp = 0 then some acc else none
  | qp, left, pads, acc, c :: rest =>
    if c = '=' then
      if 2 ≤ qp then
        if 4 ≤ qp + (pads + 1) then some acc
        else b64DecodeLoop qp left (pads + 1) acc rest
      else b64DecodeLoop qp left pads acc rest
    else
      match charToSextet c with
      | none => b64DecodeLoop qp left pads acc rest
      | some ch =>
        match qp with
        | 0 => b64DecodeLoop 1 ch 0 acc rest
        | 1 => b64DecodeLoop 2 (ch % 16) 0 (acc ++ [left * 4 + ch / 16]) rest
        | 2 => b64DecodeLoop 3 (ch % 4) 0 (acc ++ [left * 16 + ch / 4]) rest
        | _ => b64DecodeLoop 0 0 0 (acc ++ [left * 64 + ch]) rest

/-- CPython `base64.b64decode` with the default `validate=False`: run the
lenient decode loop from the initial state. -/
def pythonB64Decode (s : String) : Option (List Nat) :=
  b64DecodeLoop 0 0 0 [] s.data

/-- Validity of a byte stream as an image accepted by the codec.
Modelled from the spec: `PIL.Image.open` is outside the repository; per
§4.2 the decode step is an exact inverse parse that fails on malformed
input, and the codec's format is JPEG (data-URI `data:image/jpeg`), whose
streams begin with the bytes `FF D8 FF`.  Byte values are bounded. -/
def ImageStream.isValid (bs : List Nat) : Bool :=
  bs.take 3 == [255, 216, 255] && bs.all (fun b => b < 256)

/-- An in-memory PIL image, identified with the JPEG byte stream PIL
serializes it to (the pixel decompression is external to the repository). -/
structure PILImage where
  bytes : List Nat
  valid : ImageStream.isValid bytes = true

/-- Error kind for a failed decode (spec §7 `DecodeError`). -/
inductive DecodeError where
  | badBase64
  | badImage
deriving DecidableEq

/-- `files.pil_to_base64`: serialize the image (to its JPEG byte stream)
and base64-encode the bytes.  Total — it never fails. -/
def pil_to_base64 (image : PILImage) : String :=
  ⟨b64EncodeChunks image.bytes⟩

/-- `files.base64_to_pil`: base64-decode, then re-open the bytes as an
image (`Image.open` modelled by `ImageStream.isValid`, see above). -/
def base64_to_pil (base64_image : String) : Except DecodeError PILImage :=
  match pythonB64Decode base64_image with
  | none => .error .badBase64
  | some bs =>
    if h : ImageStream.isValid bs = true then .ok ⟨bs, h⟩
    else .error .badImage

/-! ### Round-trip lemmas for the codec -/

/-! ## `data.py` — conversation data model and persisted format

`Message.role` is the string literal union `"user" | "assistant"`;
`created_at` is serialized and parsed bit-exactly as an ISO timestamp
string, modelled as an opaque string.  `ContentImageMessage.serialize_model`
replaces the image by its `pil_to_base64` encoding under the `image` key;
`ChatSession.load_from_path` maps `base64_to_pil` over the persisted
image strings and re-validates the document.  The JSON text layer
(`json.load` / `model_dump_json`) is the external bijection between the
document tree and the file; the embedding works on the document tree. -/

inductive Role where
  | user
  | assistant
deriving DecidableEq

/-- The string a role prints as in the persisted format and wire formats. -/
def Role.pyStr : Role → String
  | .user => "user"
  | .assistant => "assistant"

/-- Pydantic validation of the `role` literal on load. -/
def parseRole (s : String) : Option Role :=
  if s = "user" then some .user
  else if s = "assistant" then some .assistant
  else none

/-- Content union of `data.py`: `ContentTextMessage | ContentImageMessage`. -/
inductive Content where
  | ContentTextMessage (text : String)
  | ContentImageMessage (image : PILImage)

structure Message where
  role : Role
  content : List Content
  created_at : String

structure Conversation where
  messages : List Message

/-- Python values appearing in a `model_kwargs` dict. -/
inductive PyVal where
  | num (q : ℚ)
  | str (s : String)
  | noneVal
deriving DecidableEq

structure ChatSession where
  llm_name : String
  llm_kwargs : List (String × PyVal)
  conv : Conversation

/-- One serialized content item: tagged object `type:"text"` with the raw
text, or `type:"image"` with the codec-encoded string. -/
inductive SerializedContent where
  | text (text : String)
  | image (image : String)
deriving DecidableEq

structure SerializedMessage where
  role : String
  content : List SerializedContent
  created_at : String
deriving DecidableEq

structure SerializedChatSession where
  llm_name : String
  llm_kwargs : List (String × PyVal)
  conv_messages : List SerializedMessage
deriving DecidableEq

/-- Serialization of one content item; the image branch is
`ContentImageMessage.serialize_model` in `data.py`. -/
def serializeContent : Content → SerializedContent
  | .ContentTextMessage t => .text t
  | .ContentImageMessage img => .image (pil_to_base64 img)

def Message.serialize (m : Message) : SerializedMessage :=
  ⟨m.role.pyStr, m.content.map serializeContent, m.created_at⟩

/-- `ChatSession.save_to_path`: the document written to the JSON file. -/
def ChatSession.save_to_path (s : ChatSession) : SerializedChatSession :=
  ⟨s.llm_name, s.llm_kwargs, s.conv.messages.map Message.serialize⟩

inductive LoadError where
  | decodeFail (e : DecodeError)
  | invalidRole (role : String)
deriving DecidableEq

/-- Image deserialization loop of `ChatSession.load_from_path` fused with
pydantic re-validation of one content item. -/
def loadContent : SerializedContent → Except LoadError Content
  | .text t => .ok (.ContentTextMessage t)
  | .image s =>
    match base64_to_pil s with
    | .ok img => .ok (.ContentImageMessage img)
    | .error e => .error (.decodeFail e)

/-- Sequential left-to-right image decode over one message's content,
stopping at the first failure, as the Python loop does. -/
def loadContents : List SerializedContent → Except LoadError (List Content)
  | [] => .ok []
  | c :: rest => do
    let x ← loadContent c
    let xs ← loadContents rest
    pure (x :: xs)

def loadMessage (m : SerializedMessage) : Except LoadError Message := do
  let cs ← loadContents m.content
  match parseRole m.role with
  | some r => pure ⟨r, cs, m.created_at⟩
  | none => throw (.invalidRole m.role)

def loadMessages : List SerializedMessage → Except LoadError (List Message)
  | [] => .ok []
  | m :: rest => do
    let x ← loadMessage m
    let xs ← loadMessages rest
    pure (x :: xs)

/-- `ChatSession.load_from_path`: read the document back into a
`ChatSession`, decoding persisted images. -/
def ChatSession.load_from_path (d : SerializedChatSession) : Except LoadError ChatSession := do
  let ms ← loadMessages d.conv_messages
  pure ⟨d.llm_name, d.llm_kwargs, ⟨ms⟩⟩

/-! ## `llm/common.py` — shared conversation-to-common-block conversion

`CommonLLMChat._convert_conv_to_api_format` walks the conversation in
order, and for each `Content` item of each `Message` appends one block
carrying that message's role: a `text` block for text content, an
`image_url` block with a `data:image/jpeg;base64,` data-URI for image
content. -/

inductive ApiContentBlock where
  | text (text : String)
  | image_url (url : String)
deriving DecidableEq

structure ApiMessage where
  role : Role
  content : List ApiContentBlock
deriving DecidableEq

/-- Block emitted for one content item, carrying the message's role. -/
def formatContentBlock (role : Role) : Content → ApiMessage
  | .ContentTextMessage t => ⟨role, [.text t]⟩
  | .ContentImageMessage img =>
    ⟨role, [.image_url ("data:image/jpeg;base64," ++ pil_to_base64 img)]⟩

/-- Inner loop over one message's content list. -/
def convertContentsGo (role : Role) : List Content → List ApiMessage
  | [] => []
  | .ContentTextMessage t :: cs =>
    ⟨role, [.text t]⟩ :: convertContentsGo role cs
  | .ContentImageMessage img :: cs =>
    ⟨role, [.image_url ("data:image/jpeg;base64," ++ pil_to_base64 img)]⟩ ::
    convertContentsGo role cs

/-- Outer loop over the conversation's messages. -/
def convertMessagesGo : List Message → List ApiMessage
  | [] => []
  | m :: ms => convertContentsGo m.role m.content ++ convertMessagesGo ms

/-- `CommonLLMChat._convert_conv_to_api_format` (named
`convert_conv_to_common_format` in the earlier revision `llm.py`). -/
def CommonLLMChat.convert_conv_to_api_format (conv : Conversation) : List ApiMessage :=
  convertMessagesGo conv.messages

/-- Texts of a conversation's text content items, in conversation order. -/
def Conversation.textItems (conv : Conversation) : List String :=
  conv.messages.flatMap fun m =>
    m.content.filterMap fun c =>
      match c with
      | .ContentTextMessage t => some t
      | .ContentImageMessage _ => none

/-- Texts of the emitted text blocks, in emission order. -/
def apiTextItems (ms : List ApiMessage) : List String :=
  ms.flatMap fun m =>
    m.content.filterMap fun b =>
      match b with
      | .text t => some t
      | .image_url _ => none

/-- A three-byte image whose stream is just the JPEG header; its base64
encoding is the familiar `/9j/`. -/
def exampleImage : PILImage :=
  ⟨[255, 216, 255], by decide⟩

/-- The spec's example conversation: one user message carrying the text
`Hello!` followed by an image. -/
def exampleConv : Conversation :=
  ⟨[⟨.user, [.ContentTextMessage "Hello!", .ContentImageMessage exampleImage],
     "2025-01-01T00:00:00"⟩]⟩

/-! ## `llm/common.py` — the retry wrapper

`CommonLLMChat.generate_response` wraps `_call_api` (preceded by the
conversation conversion) in tenacity's
`retry(stop=stop_after_attempt(self.max_retries), wait=wait_fixed(self.wait_seconds))`.
Tenacity semantics: attempts are numbered from 1; the first attempt always
runs; after a failed attempt the stop condition `attempt_number >= max_retries`
is checked, and if it does not hold the wrapper sleeps `wait_seconds`
seconds and reissues the full call; once it holds, the last error is
surfaced as the retry-exhausted error.  The underlying call is modelled
as an oracle from the attempt number to that attempt's outcome, so the
theorems quantify over every possible per-attempt error behaviour. -/

/-- Error surfaced to the caller once retries are exhausted
(tenacity `RetryError`; spec §7 `ProviderError` of kind `Exhausted`). -/
inductive RetryError (ε : Type) where
  | exhausted (last : ε)
deriving DecidableEq

/-- Trace of one run of the retry wrapper: final outcome, number of
invocations of the underlying call, and the sleeps performed between
consecutive attempts (in seconds, in order). -/
structure RetryTrace (ε α : Type) where
  result : Except ε α
  invocations : Nat
  waits : List Nat

/-- Tenacity loop.  `attempt` is the 1-based attempt number about to run;
`fuel` is `max_retries - attempt`, kept structural for termination (the
stop condition itself is checked on `attempt`, exactly as tenacity does;
under the invariant `attempt + fuel = max_retries` the `fuel = 0` branch
coincides with the stop condition holding). -/
def tenacityGo (call : Nat → Except ε α) (max_retries wait_seconds : Nat) :
    Nat → Nat → RetryTrace ε α
  | attempt, 0 =>
    match call attempt with
    | .ok a => ⟨.ok a, attempt, []⟩
    | .error e => ⟨.error e, attempt, []⟩
  | attempt, fuel + 1 =>
    match call attempt with
    | .ok a => ⟨.ok a, attempt, []⟩
    | .error e =>
      if max_retries ≤ attempt then ⟨.error e, attempt, []⟩
      else
        let t := tenacityGo call max_retries wait_seconds (attempt + 1) fuel
        ⟨t.result, t.invocations, wait_seconds :: t.waits⟩

/-- `CommonLLMChat.generate_response`: run the retry-wrapped call and
surface a final failure as the `Exhausted` error.  The conversation
conversion happens inside the wrapped function, so every attempt reissues
the full call; the oracle `call` is the composite attempt body. -/
def CommonLLMChat.generate_response (max_retries wait_seconds : Nat)
    (call : Nat → Except ε α) : Except (RetryError ε) α × Nat × List Nat :=
  let t := tenacityGo call max_retries wait_seconds 1 (max_retries - 1)
  (match t.result with
   | .ok a => .ok a
   | .error e => .error (.exhausted e),
   t.invocations, t.waits)

/-! ## Adapter families and their supported-name sets

Lists are transcribed from the source; `AnthropicChat`, `OllamaChat` and
`HFLlamaChat` declare no list of their own and therefore inherit the empty
`LLMChat.SUPPORTED_LLM_NAMES`.  `AnthropicChat` additionally exposes the
static predicate `is_model_supported`. -/

def LLMChat.SUPPORTED_LLM_NAMES : List String := []

def OpenAIChat.SUPPORTED_LLM_NAMES : List String :=
  ["gpt-4o-mini-2024-07-18", "gpt-4o-2024-11-20"]

def TogetherChat.SUPPORTED_LLM_NAMES : List String :=
  ["together:meta-llama/Meta-Llama-3.1-8B-Instruct-Turbo",
   "together:meta-llama/Meta-Llama-3.1-70B-Instruct-Turbo",
   "together:meta-llama/Meta-Llama-3.1-405B-Instruct-Turbo",
   "together:meta-llama/Llama-Vision-Free"]

def GeminiChat.SUPPORTED_LLM_NAMES : List String :=
  ["gemini-1.5-flash-002", "gemini-1.5-pro-002", "gemini-2.0-flash-exp"]

/-- `llm/anthropic.py` declares no `SUPPORTED_LLM_NAMES`, so the class
attribute resolves to the inherited empty list. -/
def AnthropicChat.SUPPORTED_LLM_NAMES : List String := LLMChat.SUPPORTED_LLM_NAMES

/-- `llm/ollama.py` explicitly declares an empty list (its NOTE comment
explains it avoids hardcoding the locally installed models). -/
def OllamaChat.SUPPORTED_LLM_NAMES : List String := []

/-- `AnthropicChat.is_model_supported` from `llm/anthropic.py`. -/
def AnthropicChat.is_model_supported (model_name : String) : Bool :=
  pyStartsWith model_name "claude"

/-- Modelled from the spec: `is_ollama_model` is imported from
`llm.common` by `llm/__init__.py` and `llm/ollama.py` but is absent from
the source tree.  Per spec §4.3 every family exposes a static support
predicate, and the assert message in `OllamaChat.__init__` documents it
as the check that the name starts with the `ollama:` tag. -/
def is_ollama_model (model_name : String) : Bool :=
  pyStartsWith model_name "ollama:"

/-- Modelled from the spec: the class `HuggingfaceChat` imported by
`llm/__init__.py` is absent from the source tree (`llm/hf.py` defines
`HFLlamaChat`, which declares no name list).  Its supported names follow
the docstring of `HFLlamaChat.__init__`, `config.LLAMA_MODEL_NAMES` and
`LocalLlamaChat.SUPPORTED_LLM_NAMES` of the earlier revision `llm.py`,
which all list the same three names. -/
def HuggingfaceChat.SUPPORTED_LLM_NAMES : List String :=
  ["meta-llama/Llama-3.1-8B-Instruct",
   "meta-llama/Llama-3.2-3B-Instruct",
   "meta-llama/Llama-3.2-11B-Vision-Instruct"]

/-- Python exception kinds raised by the embedded fragments. -/
inductive PyError where
  | assertionError (msg : String)
  | valueError (msg : String)
  | typeError (msg : String)
deriving DecidableEq

inductive Family where
  | anthropic
  | gemini
  | huggingface
  | ollama
  | openai
  | together
deriving DecidableEq

/-- A constructed adapter instance: the per-instance configuration the
constructors store (`self.model_name = model_name`, `self.temperature =
temperature`, ...). -/
structure Adapter where
  family : Family
  model_name : String
  temperature : PyVal
deriving DecidableEq

/-- The assert at the top of `LLMChat.__init__`:
`model_name in self.SUPPORTED_LLM_NAMES`, before any attribute is set or
client constructed. -/
def LLMChat.init_assert (supported : List String) (model_name : String) :
    Except PyError Unit :=
  if model_name ∈ supported then .ok ()
  else .error (.assertionError "Model name must be one of SUPPORTED_LLM_NAMES.")

def OpenAIChat.init (model_name : String) (temperature : PyVal) :
    Except PyError Adapter :=
  (LLMChat.init_assert OpenAIChat.SUPPORTED_LLM_NAMES model_name).map fun _ =>
    ⟨.openai, model_name, temperature⟩

def GeminiChat.init (model_name : String) (temperature : PyVal) :
    Except PyError Adapter :=
  (LLMChat.init_assert GeminiChat.SUPPORTED_LLM_NAMES model_name).map fun _ =>
    ⟨.gemini, model_name, temperature⟩

def AnthropicChat.init (model_name : String) (temperature : PyVal) :
    Except PyError Adapter :=
  (LLMChat.init_assert AnthropicChat.SUPPORTED_LLM_NAMES model_name).map fun _ =>
    ⟨.anthropic, model_name, temperature⟩

/-- `TogetherChat.__init__` first asserts the `together:` tag, then runs
the inherited name assert. -/
def TogetherChat.init (model_name : String) (temperature : PyVal) :
    Except PyError Adapter :=
  if pyStartsWith model_name "together:" then
    (LLMChat.init_assert TogetherChat.SUPPORTED_LLM_NAMES model_name).map fun _ =>
      ⟨.together, model_name, temperature⟩
  else .error (.assertionError "model_name must start with the together tag")

/-- `OllamaChat.__init__` first asserts `is_ollama_model`, then runs the
inherited name assert against its empty declared list. -/
def OllamaChat.init (model_name : String) (temperature : PyVal) :
    Except PyError Adapter :=
  if is_ollama_model model_name then
    (LLMChat.init_assert OllamaChat.SUPPORTED_LLM_NAMES model_name).map fun _ =>
      ⟨.ollama, model_name, temperature⟩
  else .error (.assertionError "model_name must start with the ollama tag")

/-- Modelled from the spec: constructor of the absent `HuggingfaceChat`
class (spec §3 requires the construction-time supported-name check; the
constructor stores `temperature` unchanged as `HFLlamaChat.__init__`
does). -/
def HuggingfaceChat.init (model_name : String) (temperature : PyVal) :
    Except PyError Adapter :=
  (LLMChat.init_assert HuggingfaceChat.SUPPORTED_LLM_NAMES model_name).map fun _ =>
    ⟨.huggingface, model_name, temperature⟩

def familyConstruct : Family → String → PyVal → Except PyError Adapter
  | .anthropic => AnthropicChat.init
  | .gemini => GeminiChat.init
  | .huggingface => HuggingfaceChat.init
  | .ollama => OllamaChat.init
  | .openai => OpenAIChat.init
  | .together => TogetherChat.init

/-- The declared supported-name set of a family. -/
def declaredSupported : Family → List String
  | .anthropic => AnthropicChat.SUPPORTED_LLM_NAMES
  | .gemini => GeminiChat.SUPPORTED_LLM_NAMES
  | .huggingface => HuggingfaceChat.SUPPORTED_LLM_NAMES
  | .ollama => OllamaChat.SUPPORTED_LLM_NAMES
  | .openai => OpenAIChat.SUPPORTED_LLM_NAMES
  | .together => TogetherChat.SUPPORTED_LLM_NAMES

/-- The family's supported-name predicate, where one exists. -/
def declaredPred : Family → String → Bool
  | .anthropic => AnthropicChat.is_model_supported
  | .ollama => is_ollama_model
  | .together => fun n => pyStartsWith n "together:"
  | _ => fun _ => false

/-- A name is supported by a family when it belongs to the declared set
or satisfies the declared predicate. -/
def familySupported (f : Family) (n : String) : Bool :=
  (declaredSupported f).contains n || declaredPred f n

/-! ## `llm/__init__.py` — the `get_llm` dispatcher

The `match` statement tests, in order: the Anthropic list (empty by
inheritance), the Gemini list, the Huggingface list (with the temperature
floor and the in-place `model_kwargs` mutation), then the arm written
`case is_ollama_model(model_name):`.  That arm is a class pattern whose
subject is a function, and CPython raises
`TypeError: called match pattern must be a type` whenever a class pattern
names a non-class — so every model name that reaches the fourth arm
raises `TypeError`, and the OpenAI arm, the Together arm and the final
`case _:` arm that raises the intended `ValueError` are unreachable.
The embedding returns the final state of `model_kwargs` alongside the
result, modelling the caller-visible in-place mutation. -/

/-- Value of `model_kwargs["temperature"]` as the constructors receive
it, defaulting to the signature default `0.0`. -/
def kwargsTemperature (kw : List (String × PyVal)) : PyVal :=
  (kw.lookup "temperature").getD (.num 0)

/-- Python dict assignment `d[k] = v` for a key already present: replace
the value, keep insertion order. -/
def dictSet (kw : List (String × PyVal)) (k : String) (v : PyVal) :
    List (String × PyVal) :=
  kw.map fun p => if p.1 = k then (k, v) else p

def get_llm (model_name : String) (model_kwargs : List (String × PyVal)) :
    Except PyError Adapter × List (String × PyVal) :=
  if model_name ∈ AnthropicChat.SUPPORTED_LLM_NAMES then
    (AnthropicChat.init model_name (kwargsTemperature model_kwargs), model_kwargs)
  else if model_name ∈ GeminiChat.SUPPORTED_LLM_NAMES then
    (GeminiChat.init model_name (kwargsTemperature model_kwargs), model_kwargs)
  else if model_name ∈ HuggingfaceChat.SUPPORTED_LLM_NAMES then
    match model_kwargs.lookup "temperature" with
    | none =>
      (HuggingfaceChat.init model_name (kwargsTemperature model_kwargs), model_kwargs)
    | some (.num q) =>
      let floored : PyVal := .num (max (mkRat 1 100) q)
      (HuggingfaceChat.init model_name floored,
       dictSet model_kwargs "temperature" floored)
    | some _ =>
      (.error (.typeError "bad operand type for max"), model_kwargs)
  else
    (.error (.typeError "called match pattern must be a type"), model_kwargs)

/-! ## `llm/together.py`, `llm/ollama.py` — model identifier sent to the
backend's native API -/

/-- The `model=` argument of the Together `_call_api`:
`self.model_name[len("together:"):]`. -/
def TogetherChat.call_api_model (model_name : String) : String :=
  pySliceFrom model_name "together:".length

/-- The `model=` argument of the Ollama `_call_api`:
`self.model_name[len("ollama:"):]`. -/
def OllamaChat.call_api_model (model_name : String) : String :=
  pySliceFrom model_name "ollama:".length

/-- The `model=` argument of the earlier revision's Together `_call_api`
in `llm.py`: `self.model_name.lstrip("together:")` — a character-SET
strip, not a tag removal. -/
def TogetherChat.call_api_model_rev0 (model_name : String) : String :=
  pyLstripChars model_name "together:"

/-! ## `llm/hf.py` — the local multimodal runtime adapter -/

/-- The image-collection loop of `HFLlamaChat.generate_response`: every
`ContentImageMessage` across the whole conversation, in order. -/
def HFLlamaChat.collect_images (conv : Conversation) : List PILImage :=
  conv.messages.flatMap fun m =>
    m.content.filterMap fun c =>
      match c with
      | .ContentImageMessage img => some img
      | .ContentTextMessage _ => none

/-- Output post-processing of `HFLlamaChat.generate_response`:
`decoded_output.split("assistant<|end_header_id|>")`, then
`parts[-1].strip().rstrip("<|eot_id|>")` — the final `rstrip` strips the
character SET of the marker, not the marker as a suffix. -/
def HFLlamaChat.extract_latest_assistant (decoded_output : String) : String :=
  let parts := pySplit decoded_output "assistant<|end_header_id|>"
  match parts.getLast? with
  | some last => pyRstripChars (pyStripWhitespace last) "<|eot_id|>"
  | none => ""

/-- `HFLlamaChat.generate_response`, with the runtime
(`model.generate` + `processor.decode`) abstracted as the decoded output
string it produces: the images handed to the processor and the string
returned to the caller. -/
def HFLlamaChat.generate_response (conv : Conversation) (decoded_output : String) :
    List PILImage × String :=
  (HFLlamaChat.collect_images conv, HFLlamaChat.extract_latest_assistant decoded_output)

/-- Strings are equal when their code-point lists are. -/
theorem string_data_eq {a b : String} (h : a.data = b.data) : a = b := by
  cases a; cases b; exact congrArg String.mk h

theorem string_append_data (a b : String) : (a ++ b).data = a.data ++ b.data := by
  cases a; cases b; rfl

theorem charToSextet_sextetToChar : ∀ n < 64, charToSextet (sextetToChar n) = some n := by
  decide

theorem isB64Char_sextetToChar : ∀ n < 64, isB64Char (sextetToChar n) = true := by
  decide

/-- Every character emitted by the encoder on genuine bytes is an
alphabet character or `=`. -/
theorem mem_b64EncodeChunks (bs : List Nat) :
    (∀ b ∈ bs, b < 256) → ∀ c ∈ b64EncodeChunks bs, isB64Char c = true ∨ c = '=' := by
  induction bs using b64EncodeChunks.induct with
  | case1 a b c rest ih =>
    intro hb d hd
    have ha1 : a < 256 := hb a (by simp)
    have hb1 : b < 256 := hb b (by simp)
    have hc1 : c < 256 := hb c (by simp)
    simp only [b64EncodeChunks, List.mem_cons] at hd
    rcases hd with h | h | h | h | h
    · exact Or.inl (h ▸ isB64Char_sextetToChar _ (by omega))
    · exact Or.inl (h ▸ isB64Char_sextetToChar _ (by omega))
    · exact Or.inl (h ▸ isB64Char_sextetToChar _ (by omega))
    · exact Or.inl (h ▸ isB64Char_sextetToChar _ (by omega))
    · exact ih (fun x hx => hb x (by simp [hx])) d h
  | case2 a b =>
    intro hb d hd
    have ha1 : a < 256 := hb a (by simp)
    have hb1 : b < 256 := hb b (by simp)
    simp only [b64EncodeChunks, List.mem_cons] at hd
    rcases hd with h | h | h | h | h
    · exact Or.inl (h ▸ isB64Char_sextetToChar _ (by omega))
    · exact Or.inl (h ▸ isB64Char_sextetToChar _ (by omega))
    · exact Or.inl (h ▸ isB64Char_sextetToChar _ (by omega))
    · exact Or.inr h
    · simp at h
  | case3 a =>
    intro hb d hd
    have ha1 : a < 256 := hb a (by simp)
    simp only [b64EncodeChunks, List.mem_cons] at hd
    rcases hd with h | h | h | h | h
    · exact Or.inl (h ▸ isB64Char_sextetToChar _ (by omega))
    · exact Or.inl (h ▸ isB64Char_sextetToChar _ (by omega))
    · exact Or.inr h
    · exact Or.inr h
    · simp at h
  | case4 => intro _ d hd; simp [b64EncodeChunks] at hd

theorem sextetToChar_ne_pad : ∀ n < 64, sextetToChar n ≠ '=' := by
  decide

/-- The lenient decode loop inverts the encoder on genuine byte lists,
from any accumulator. -/
theorem b64DecodeLoop_b64EncodeChunks (bs : List Nat) :
    (∀ b ∈ bs, b < 256) → ∀ acc : List Nat,
      b64DecodeLoop 0 0 0 acc (b64EncodeChunks bs) = some (acc ++ bs) := by
  induction bs using b64EncodeChunks.induct with
  | case1 a b c rest ih =>
    intro hb acc
    have ha1 : a < 256 := hb a (by simp)
    have hb1 : b < 256 := hb b (by simp)
    have hc1 : c < 256 := hb c (by simp)
    have n1 : sextetToChar (a / 4) ≠ '=' := sextetToChar_ne_pad _ (by omega)
    have n2 : sextetToChar (a % 4 * 16 + b / 16) ≠ '=' := sextetToChar_ne_pad _ (by omega)
    have n3 : sextetToChar (b % 16 * 4 + c / 64) ≠ '=' := sextetToChar_ne_pad _ (by omega)
    have n4 : sextetToChar (c % 64) ≠ '=' := sextetToChar_ne_pad _ (by omega)
    have e1 : a / 4 * 4 + (a % 4 * 16 + b / 16) / 16 = a := by omega
    have el2 : (a % 4 * 16 + b / 16) % 16 = b / 16 := by omega
    have e2 : b / 16 * 16 + (b % 16 * 4 + c / 64) / 4 = b := by omega
    have el3 : (b % 16 * 4 + c / 64) % 4 = c / 64 := by omega
    have e3 : c / 64 * 64 + c % 64 = c := by omega
    simp only [b64EncodeChunks, b64DecodeLoop, if_neg n1, if_neg n2, if_neg n3, if_neg n4,
      charToSextet_sextetToChar _ (by omega : a / 4 < 64),
      charToSextet_sextetToChar _ (by omega : a % 4 * 16 + b / 16 < 64),
      charToSextet_sextetToChar _ (by omega : b % 16 * 4 + c / 64 < 64),
      charToSextet_sextetToChar _ (by omega : c % 64 < 64),
      e1, el2, e2, el3, e3]
    rw [ih (fun x hx => hb x (by simp [hx]))]
    simp
  | case2 a b =>
    intro hb acc
    have ha1 : a < 256 := hb a (by simp)
    have hb1 : b < 256 := hb b (by simp)
    have n1 : sextetToChar (a / 4) ≠ '=' := sextetToChar_ne_pad _ (by omega)
    have n2 : sextetToChar (a % 4 * 16 + b / 16) ≠ '=' := sextetToChar_ne_pad _ (by omega)
    have n3 : sextetToChar (b % 16 * 4) ≠ '=' := sextetToChar_ne_pad _ (by omega)
    have e1 : a / 4 * 4 + (a % 4 * 16 + b / 16) / 16 = a := by omega
    have el2 : (a % 4 * 16 + b / 16) % 16 = b / 16 := by omega
    have e2 : b / 16 * 16 + b % 16 * 4 / 4 = b := by omega
    simp only [b64EncodeChunks, b64DecodeLoop, if_neg n1, if_neg n2, if_neg n3,
      charToSextet_sextetToChar _ (by omega : a / 4 < 64),
      charToSextet_sextetToChar _ (by omega : a % 4 * 16 + b / 16 < 64),
      charToSextet_sextetToChar _ (by omega : b % 16 * 4 < 64),
      e1, el2, e2]
    simp
  | case3 a =>
    intro hb acc
    have ha1 : a < 256 := hb a (by simp)
    have n1 : sextetToChar (a / 4) ≠ '=' := sextetToChar_ne_pad _ (by omega)
    have n2 : sextetToChar (a % 4 * 16) ≠ '=' := sextetToChar_ne_pad _ (by omega)
    have e1 : a / 4 * 4 + a % 4 * 16 / 16 = a := by omega
    simp only [b64EncodeChunks, b64DecodeLoop, if_neg n1, if_neg n2,
      charToSextet_sextetToChar _ (by omega : a / 4 < 64),
      charToSextet_sextetToChar _ (by omega : a % 4 * 16 < 64),
      e1]
    simp
  | case4 => intro _ acc; simp [b64EncodeChunks, b64DecodeLoop]

/-- Byte bound carried by every `PILImage`. -/
theorem PILImage.bytes_lt (img : PILImage) : ∀ b ∈ img.bytes, b < 256 := by
  have h := img.valid
  simp only [ImageStream.isValid, Bool.and_eq_true, List.all_eq_true,
    decide_eq_true_eq] at h
  exact h.2

/-- The codec round trip: decoding an encoded image restores it exactly
(at the byte-stream level of the model). -/
theorem base64_to_pil_pil_to_base64 (img : PILImage) :
    base64_to_pil (pil_to_base64 img) = .ok img := by
  unfold base64_to_pil pythonB64Decode pil_to_base64
  rw [show (String.mk (b64EncodeChunks img.bytes)).data = b64EncodeChunks img.bytes from rfl,
    b64DecodeLoop_b64EncodeChunks img.bytes img.bytes_lt []]
  simp only [List.nil_append, img.valid, dite_eq_ite, if_pos]
  rfl

theorem loadContent_serializeContent (c : Content) :
    loadContent (serializeContent c) = .ok c := by
  cases c with
  | ContentTextMessage t => rfl
  | ContentImageMessage img =>
    simp [serializeContent, loadContent, base64_to_pil_pil_to_base64 img]

theorem parseRole_pyStr (r : Role) : parseRole r.pyStr = some r := by
  cases r <;> rfl

theorem loadMessage_serialize (m : Message) : loadMessage m.serialize = .ok m := by
  have hc : ∀ cs : List Content,
      loadContents (cs.map serializeContent) = Except.ok cs := by
    intro cs
    induction cs with
    | nil => rfl
    | cons c rest ih =>
      simp [loadContents, loadContent_serializeContent, ih, Bind.bind, Except.bind, Pure.pure, Except.pure]
  cases m with
  | mk r cs t =>
    simp [Message.serialize, loadMessage, hc, parseRole_pyStr, Bind.bind, Except.bind, Pure.pure, Except.pure]

theorem load_save_chatSession (s : ChatSession) :
    ChatSession.load_from_path (ChatSession.save_to_path s) = .ok s := by
  have hm : ∀ ms : List Message,
      loadMessages (ms.map Message.serialize) = Except.ok ms := by
    intro ms
    induction ms with
    | nil => rfl
    | cons m rest ih =>
      simp [loadMessages, loadMessage_serialize, ih, Bind.bind, Except.bind, Pure.pure, Except.pure]
  cases s with
  | mk n kw conv =>
    cases conv with
    | mk ms =>
      simp [ChatSession.save_to_path, ChatSession.load_from_path, hm, Bind.bind, Except.bind, Pure.pure, Except.pure]

theorem convertContentsGo_eq_map (role : Role) (cs : List Content) :
    convertContentsGo role cs = cs.map (formatContentBlock role) := by
  induction cs with
  | nil => rfl
  | cons c rest ih =>
    cases c with
    | ContentTextMessage t => simp [convertContentsGo, formatContentBlock, ih]
    | ContentImageMessage img => simp [convertContentsGo, formatContentBlock, ih]

theorem convert_conv_eq_flatMap (conv : Conversation) :
    CommonLLMChat.convert_conv_to_api_format conv =
      conv.messages.flatMap fun m => m.content.map (formatContentBlock m.role) := by
  unfold CommonLLMChat.convert_conv_to_api_format
  induction conv.messages with
  | nil => rfl
  | cons m ms ih =>
    simp [convertMessagesGo, convertContentsGo_eq_map, ih]

theorem apiTextItems_append (a b : List ApiMessage) :
    apiTextItems (a ++ b) = apiTextItems a ++ apiTextItems b := by
  simp [apiTextItems]

theorem apiTextItems_convertContents (role : Role) (cs : List Content) :
    apiTextItems (convertContentsGo role cs) =
      cs.filterMap fun c =>
        match c with
        | .ContentTextMessage t => some t
        | .ContentImageMessage _ => none := by
  induction cs with
  | nil => rfl
  | cons c rest ih =>
    cases c with
    | ContentTextMessage t => simp [convertContentsGo, apiTextItems] at ih ⊢; simp [ih]
    | ContentImageMessage img => simp [convertContentsGo, apiTextItems] at ih ⊢; simp [ih]

/-- Text content round-trips exactly through the conversion. -/
theorem apiTextItems_convert (conv : Conversation) :
    apiTextItems (CommonLLMChat.convert_conv_to_api_format conv) = conv.textItems := by
  unfold CommonLLMChat.convert_conv_to_api_format Conversation.textItems
  induction conv.messages with
  | nil => rfl
  | cons m ms ih =>
    simp only [convertMessagesGo, apiTextItems_append, List.flatMap_cons, ih,
      apiTextItems_convertContents]

theorem tenacityGo_spec (call : Nat → Except ε α) (max_retries wait_seconds : Nat) :
    ∀ fuel attempt, attempt + fuel = max_retries → 1 ≤ attempt →
      attempt ≤ (tenacityGo call max_retries wait_seconds attempt fuel).invocations ∧
      (tenacityGo call max_retries wait_seconds attempt fuel).invocations ≤ max_retries ∧
      (tenacityGo call max_retries wait_seconds attempt fuel).waits =
        List.replicate
          ((tenacityGo call max_retries wait_seconds attempt fuel).invocations - attempt)
          wait_seconds ∧
      ((∀ i, (call i).isOk = false) →
        (tenacityGo call max_retries wait_seconds attempt fuel).invocations = max_retries ∧
        (tenacityGo call max_retries wait_seconds attempt fuel).result = call max_retries) := by
  intro fuel
  induction fuel with
  | zero =>
    intro attempt hsum h1
    have hae : attempt = max_retries := by omega
    cases hc : call attempt with
    | ok a =>
      have ht : tenacityGo call max_retries wait_seconds attempt 0 =
          ⟨.ok a, attempt, []⟩ := by
        simp [tenacityGo, hc]
      simp only [ht]
      refine ⟨le_refl _, by omega, by simp, fun hf => ?_⟩
      have hb := hf attempt
      rw [hc] at hb
      simp [Except.isOk, Except.toBool] at hb
    | error e =>
      have ht : tenacityGo call max_retries wait_seconds attempt 0 =
          ⟨.error e, attempt, []⟩ := by
        simp [tenacityGo, hc]
      simp only [ht]
      exact ⟨le_refl _, by omega, by simp, fun _ => ⟨hae, by rw [← hae]; exact hc.symm⟩⟩
  | succ fuel ih =>
    intro attempt hsum h1
    have hlt : attempt < max_retries := by omega
    cases hc : call attempt with
    | ok a =>
      have ht : tenacityGo call max_retries wait_seconds attempt (fuel + 1) =
          ⟨.ok a, attempt, []⟩ := by
        simp [tenacityGo, hc]
      simp only [ht]
      refine ⟨le_refl _, by omega, by simp, fun hf => ?_⟩
      have hb := hf attempt
      rw [hc] at hb
      simp [Except.isOk, Except.toBool] at hb
    | error e =>
      have hstop : ¬ max_retries ≤ attempt := by omega
      have ht : tenacityGo call max_retries wait_seconds attempt (fuel + 1) =
          ⟨(tenacityGo call max_retries wait_seconds (attempt + 1) fuel).result,
           (tenacityGo call max_retries wait_seconds (attempt + 1) fuel).invocations,
           wait_seconds ::
             (tenacityGo call max_retries wait_seconds (attempt + 1) fuel).waits⟩ := by
        simp [tenacityGo, hc, hstop]
      obtain ⟨ih1, ih2, ih3, ih4⟩ := ih (attempt + 1) (by omega) (by omega)
      simp only [ht]
      refine ⟨by omega, ih2, ?_, fun hf => ih4 hf⟩
      rw [ih3]
      have hstep :
          (tenacityGo call max_retries wait_seconds (attempt + 1) fuel).invocations - attempt
            = ((tenacityGo call max_retries wait_seconds (attempt + 1) fuel).invocations
                - (attempt + 1)) + 1 := by
        omega
      rw [hstep, List.replicate_succ]

/-! ## Shared helper lemmas for the claim theorems -/

theorem except_error_of_isOk_false {x : Except ε α} (h : x.isOk = false) :
    ∃ e, x = .error e := by
  cases x with
  | ok a => simp [Except.isOk, Except.toBool] at h
  | error e => exact ⟨e, rfl⟩

theorem list_contains_iff (l : List String) (n : String) :
    l.contains n = true ↔ n ∈ l := by
  simp [List.contains_iff_exists_mem_beq, beq_iff_eq]

theorem init_assert_map_ok {l : List String} {n : String} {g : Unit → Adapter}
    {a : Adapter} :
    (LLMChat.init_assert l n).map g = .ok a ↔ n ∈ l ∧ a = g () := by
  unfold LLMChat.init_assert
  by_cases hm : n ∈ l
  · simp [hm, Except.map, eq_comm]
  · simp [hm, Except.map]

/-! ## Claim theorems -/

/-- C1: for every adapter configuration and every per-attempt behaviour of
the underlying API call, `generate_response` invokes the call at most
`max_retries` times, with exactly a `wait_seconds`-second wait between
each pair of consecutive attempts; and when every attempt fails —
whatever each attempt's error is — it stops after exactly `max_retries`
invocations and surfaces the last error to the caller as the `Exhausted`
error.  The hypothesis `1 ≤ max_retries` reflects tenacity's semantics of
always running the first attempt. -/
theorem c1_retry_wrapper (max_retries wait_seconds : Nat)
    (call : Nat → Except ε α) (hpos : 1 ≤ max_retries) :
    (CommonLLMChat.generate_response max_retries wait_seconds call).2.1 ≤ max_retries ∧
    (∀ w ∈ (CommonLLMChat.generate_response max_retries wait_seconds call).2.2,
      w = wait_seconds) ∧
    (CommonLLMChat.generate_response max_retries wait_seconds call).2.2.length =
      (CommonLLMChat.generate_response max_retries wait_seconds call).2.1 - 1 ∧
    ((∀ i, (call i).isOk = false) →
      (CommonLLMChat.generate_response max_retries wait_seconds call).2.1 = max_retries ∧
      ∃ e, call max_retries = .error e ∧
        (CommonLLMChat.generate_response max_retries wait_seconds call).1 =
          .error (.exhausted e)) := by
  obtain ⟨h1, h2, h3, h4⟩ :=
    tenacityGo_spec call max_retries wait_seconds (max_retries - 1) 1 (by omega) (le_refl 1)
  simp only [CommonLLMChat.generate_response]
  refine ⟨h2, ?_, ?_, ?_⟩
  · intro w hw
    rw [h3] at hw
    exact List.eq_of_mem_replicate hw
  · rw [h3]
    simp
  · intro hf
    obtain ⟨hinv, hres⟩ := h4 hf
    obtain ⟨e, he⟩ := except_error_of_isOk_false (hf max_retries)
    refine ⟨hinv, e, he, ?_⟩
    rw [hres, he]

/-- Witness for C1 at a concrete always-failing call with three retries
and a two-second wait. -/
theorem c1_retry_wrapper_witness :
    (CommonLLMChat.generate_response 3 2
        (fun _ => (Except.error "boom" : Except String String))).2.1 ≤ 3 ∧
    (∀ w ∈ (CommonLLMChat.generate_response 3 2
        (fun _ => (Except.error "boom" : Except String String))).2.2, w = 2) := by
  have h := c1_retry_wrapper 3 2
    (fun _ => (Except.error "boom" : Except String String)) (by decide)
  exact ⟨h.1, h.2.1⟩

/-- C2 (code bug evaluation): `get_llm` raises `TypeError` — not the
intended `ValueError` listing the supported models — for an OpenAI name,
for a name no family recognizes, and for an Anthropic name, because the
`case is_ollama_model(model_name):` arm is a class pattern over a
function and the Anthropic arm tests the empty inherited list; the
OpenAI, Together and default arms are unreachable. -/
theorem c2_dispatcher_typeerror :
    get_llm "gpt-4o-2024-11-20" [] =
      (.error (.typeError "called match pattern must be a type"), []) ∧
    get_llm "some-unknown-model" [] =
      (.error (.typeError "called match pattern must be a type"), []) ∧
    get_llm "claude-3-5-haiku-20241022" [] =
      (.error (.typeError "called match pattern must be a type"), []) :=
  ⟨rfl, rfl, rfl⟩

/-- C3: the shared common-block conversion emits, in conversation order,
exactly one block per `Content` item, each carrying that item's message
role; on the spec's example conversation (one user message with text
`Hello!` then an image) it yields exactly the two expected ordered
blocks; and the text content round-trips exactly. -/
theorem c3_common_block_conversion :
    (∀ conv : Conversation,
      CommonLLMChat.convert_conv_to_api_format conv =
        conv.messages.flatMap fun m => m.content.map (formatContentBlock m.role)) ∧
    CommonLLMChat.convert_conv_to_api_format exampleConv =
      [⟨.user, [.text "Hello!"]⟩,
       ⟨.user, [.image_url "data:image/jpeg;base64,/9j/"]⟩] ∧
    (∀ conv : Conversation,
      apiTextItems (CommonLLMChat.convert_conv_to_api_format conv) = conv.textItems) :=
  ⟨convert_conv_eq_flatMap, by decide, apiTextItems_convert⟩

/-- C4 (counterexample): the requested temperature `1/200 = 0.005` is
positive, yet `get_llm` hands the local-runtime adapter `1/100 = 0.01`
instead of passing it through unchanged, because the floor is
`max(0.01, temperature)`. -/
theorem c4_counterexample :
    0 < mkRat 1 200 ∧
    get_llm "meta-llama/Llama-3.1-8B-Instruct"
        [("temperature", .num (mkRat 1 200))] =
      (.ok ⟨.huggingface, "meta-llama/Llama-3.1-8B-Instruct", .num (mkRat 1 100)⟩,
       [("temperature", .num (mkRat 1 100))]) ∧
    PyVal.num (mkRat 1 100) ≠ PyVal.num (mkRat 1 200) :=
  ⟨by decide, by rfl, by decide⟩

/-- C4 (amended): when the dispatcher routes a name to the local-runtime
family, a requested temperature below `0.01` — including exactly `0` —
is raised to `0.01` before construction, every temperature at least
`0.01` is passed through unchanged, and the adapter constructor itself
never alters the temperature it is given. -/
theorem c4_temperature_floor (name : String) (kw : List (String × PyVal)) (q : ℚ)
    (hname : name ∈ HuggingfaceChat.SUPPORTED_LLM_NAMES)
    (htemp : kw.lookup "temperature" = some (.num q)) :
    (q < mkRat 1 100 →
      (get_llm name kw).1 = .ok ⟨.huggingface, name, .num (mkRat 1 100)⟩) ∧
    (mkRat 1 100 ≤ q →
      (get_llm name kw).1 = .ok ⟨.huggingface, name, .num q⟩) ∧
    (∀ t a, HuggingfaceChat.init name t = .ok a → a.temperature = t) := by
  have hroute : (get_llm name kw).1 =
      .ok ⟨.huggingface, name, .num (max (mkRat 1 100) q)⟩ := by
    simp only [HuggingfaceChat.SUPPORTED_LLM_NAMES, List.mem_cons,
      List.mem_singleton, List.not_mem_nil, or_false] at hname
    rcases hname with rfl | rfl | rfl <;>
      simp [get_llm, htemp, AnthropicChat.SUPPORTED_LLM_NAMES, LLMChat.SUPPORTED_LLM_NAMES,
        GeminiChat.SUPPORTED_LLM_NAMES, HuggingfaceChat.SUPPORTED_LLM_NAMES,
        HuggingfaceChat.init, LLMChat.init_assert, Except.map]
  refine ⟨?_, ?_, ?_⟩
  · intro hq
    rw [hroute, max_eq_left hq.le]
  · intro hq
    rw [hroute, max_eq_right hq]
  · intro t a h
    simp only [HuggingfaceChat.init] at h
    rcases init_assert_map_ok.mp h with ⟨-, rfl⟩
    rfl

/-- Witness for C4 at temperature exactly `0`: the adapter receives
`0.01`. -/
theorem c4_temperature_floor_witness :
    (get_llm "meta-llama/Llama-3.2-3B-Instruct"
        [("temperature", .num (mkRat 0 1))]).1 =
      .ok ⟨.huggingface, "meta-llama/Llama-3.2-3B-Instruct", .num (mkRat 1 100)⟩ :=
  (c4_temperature_floor "meta-llama/Llama-3.2-3B-Instruct"
    [("temperature", .num (mkRat 0 1))] (mkRat 0 1) (by decide) rfl).1 (by decide)

/-- C5 (counterexample): the string obtained by prepending the
non-alphabet character `!` to a well-formed encoding is malformed — it is
produced by no image — yet `base64_to_pil` accepts it, because CPython's
lenient `b64decode` discards characters outside the base64 alphabet
before the padding check. -/
theorem c5_counterexample :
    (¬ ∃ img : PILImage, pil_to_base64 img = "!/9j/") ∧
    base64_to_pil "!/9j/" = .ok exampleImage := by
  constructor
  · rintro ⟨img, h⟩
    have hd : b64EncodeChunks img.bytes = "!/9j/".data := congrArg String.data h
    have hmem : '!' ∈ b64EncodeChunks img.bytes := by
      rw [hd]
      decide
    rcases mem_b64EncodeChunks img.bytes img.bytes_lt '!' hmem with hb | hb
    · exact absurd hb (by decide)
    · exact absurd hb (by decide)
  · rfl

/-- C5 (amended): `pil_to_base64` is total and `base64_to_pil` inverts it
exactly, but `base64_to_pil` is not an exact inverse parse failing on
every malformed input: the lenient decoder discards characters outside
the base64 alphabet and stops at the first completed padding, so
malformed inputs differing from a well-formed encoding only in those
ways are accepted (the last conjunct shows trailing garbage after a
padded encoding being accepted by truncation); when the decode loop
itself signals a padding error, or the decoded bytes are not a valid
image stream, the failure is the corresponding `DecodeError` kind. -/
theorem c5_codec_contract :
    (∀ img : PILImage, base64_to_pil (pil_to_base64 img) = .ok img) ∧
    (∀ s, pythonB64Decode s = none → base64_to_pil s = .error .badBase64) ∧
    (∀ s bs, pythonB64Decode s = some bs → ImageStream.isValid bs = false →
      base64_to_pil s = .error .badImage) ∧
    base64_to_pil "/9j/AA==AAAA" = .ok ⟨[255, 216, 255, 0], by decide⟩ := by
  refine ⟨base64_to_pil_pil_to_base64, ?_, ?_, by rfl⟩
  · intro s h
    unfold base64_to_pil
    rw [h]
  · intro s bs h hv
    unfold base64_to_pil
    rw [h]
    simp [hv]

/-- Witness for C5 at concrete inputs: the round trip on the example
image, a padding failure, and a non-image byte stream. -/
theorem c5_codec_contract_witness :
    base64_to_pil (pil_to_base64 exampleImage) = .ok exampleImage ∧
    base64_to_pil "A" = .error .badBase64 ∧
    base64_to_pil "AAAA" = .error .badImage :=
  ⟨c5_codec_contract.1 exampleImage,
   c5_codec_contract.2.1 "A" rfl,
   c5_codec_contract.2.2.1 "AAAA" [0, 0, 0] rfl rfl⟩

/-- C6: saving a `ChatSession` to the persisted document and loading it
back succeeds and reproduces the session exactly — in particular the
conversation has identical message count, identical roles, identical
text content in the original order, and bit-exact text and timestamps. -/
theorem c6_save_load_round_trip (sess : ChatSession) :
    ChatSession.load_from_path (ChatSession.save_to_path sess) = .ok sess :=
  load_save_chatSession sess

/-- C7: for every adapter family, construction succeeds only for a
model name in the family's declared supported-name set or satisfying its
supported-name predicate — an unsupported name fails the construction-time
assert immediately — and a constructed adapter stores exactly the name it
was constructed with, so no adapter instance ever holds an unsupported
name. -/
theorem c7_construction_validates_name (f : Family) (name : String) (t : PyVal) :
    (familySupported f name = false → ∀ a, familyConstruct f name t ≠ .ok a) ∧
    (∀ a, familyConstruct f name t = .ok a →
      familySupported f name = true ∧ a.model_name = name ∧ a.family = f) := by
  have hset : ∀ a, familyConstruct f name t = .ok a →
      name ∈ declaredSupported f ∧ a = Adapter.mk f name t := by
    intro a h
    cases f <;>
      simp only [familyConstruct, AnthropicChat.init, GeminiChat.init,
        HuggingfaceChat.init, OllamaChat.init, OpenAIChat.init, TogetherChat.init] at h
    case anthropic => exact init_assert_map_ok.mp h |>.imp id fun ha => ha
    case gemini => exact init_assert_map_ok.mp h |>.imp id fun ha => ha
    case huggingface => exact init_assert_map_ok.mp h |>.imp id fun ha => ha
    case openai => exact init_assert_map_ok.mp h |>.imp id fun ha => ha
    case ollama =>
      by_cases ho : is_ollama_model name
      · rw [if_pos ho] at h
        exact init_assert_map_ok.mp h |>.imp id fun ha => ha
      · rw [if_neg ho] at h
        exact absurd h (by simp)
    case together =>
      by_cases ho : pyStartsWith name "together:" = true
      · rw [if_pos ho] at h
        exact init_assert_map_ok.mp h |>.imp id fun ha => ha
      · rw [if_neg ho] at h
        exact absurd h (by simp)
  constructor
  · intro hns a h
    obtain ⟨hm, -⟩ := hset a h
    have : familySupported f name = true := by
      unfold familySupported
      rw [Bool.or_eq_true, list_contains_iff]
      exact Or.inl hm
    rw [this] at hns
    cases hns
  · intro a h
    obtain ⟨hm, rfl⟩ := hset a h
    refine ⟨?_, rfl, rfl⟩
    unfold familySupported
    rw [Bool.or_eq_true, list_contains_iff]
    exact Or.inl hm

/-- Witness for C7: the OpenAI family at one of its supported names
constructs successfully and the claim's conclusion holds there. -/
theorem c7_construction_validates_name_witness :
    familySupported .openai "gpt-4o-2024-11-20" = true ∧
    (Adapter.mk .openai "gpt-4o-2024-11-20" (.num (mkRat 0 1))).model_name =
      "gpt-4o-2024-11-20" :=
  ⟨((c7_construction_validates_name .openai "gpt-4o-2024-11-20"
      (.num (mkRat 0 1))).2 _ rfl).1,
   ((c7_construction_validates_name .openai "gpt-4o-2024-11-20"
      (.num (mkRat 0 1))).2 _ rfl).2.1⟩

/-- C8 (code bug evaluation): on a decoded runtime output whose last
assistant segment is `The tide<|eot_id|>`, `generate_response` collects
the conversation's images in order and splits on the turn-boundary
marker correctly, but returns `"The "` instead of the claim's
`"The tide"`: `.rstrip("<|eot_id|>")` removes trailing characters drawn
from the marker's character set, not the marker as a suffix, so it also
eats the final word `tide`. -/
theorem c8_rstrip_eats_message_text :
    HFLlamaChat.generate_response exampleConv
        "user<|end_header_id|>hi<|eot_id|>assistant<|end_header_id|>\n\nThe tide<|eot_id|>"
      = ([exampleImage], "The ") ∧
    "The " ≠ "The tide" :=
  ⟨rfl, by decide⟩

/-- C9: for every supported Together model name the identifier sent to
the backend API is exactly the name with the `together:` tag removed (in
both revisions: the slice of the current adapter and the `lstrip` of the
earlier revision agree on all supported names), and for every Ollama
model name bearing the `ollama:` tag the identifier sent is exactly the
name with that tag removed. -/
theorem c9_tag_stripped_before_api :
    (∀ n ∈ TogetherChat.SUPPORTED_LLM_NAMES,
      "together:" ++ TogetherChat.call_api_model n = n) ∧
    (∀ n, pyStartsWith n "ollama:" = true →
      "ollama:" ++ OllamaChat.call_api_model n = n) ∧
    (∀ n ∈ TogetherChat.SUPPORTED_LLM_NAMES,
      TogetherChat.call_api_model_rev0 n = TogetherChat.call_api_model n) := by
  refine ⟨by decide, ?_, by decide⟩
  intro n h
  unfold pyStartsWith at h
  have hpre : "ollama:".data <+: n.data := by
    rwa [List.isPrefixOf_iff_prefix] at h
  obtain ⟨t, ht⟩ := hpre
  apply string_data_eq
  rw [string_append_data]
  show "ollama:".data ++ n.data.drop "ollama:".data.length = n.data
  rw [← ht, List.drop_left]

/-- Witness for C9 at one supported Together name and one tagged Ollama
name. -/
theorem c9_tag_stripped_before_api_witness :
    "together:" ++ TogetherChat.call_api_model "together:meta-llama/Llama-Vision-Free" =
      "together:meta-llama/Llama-Vision-Free" ∧
    "ollama:" ++ OllamaChat.call_api_model "ollama:llama3.2" = "ollama:llama3.2" :=
  ⟨c9_tag_stripped_before_api.1 _ (by decide),
   c9_tag_stripped_before_api.2.1 "ollama:llama3.2" (by decide)⟩

/-- C10: when `get_llm` routes a name to the local-runtime family and the
caller's `model_kwargs` holds a numeric `temperature`, the caller's own
dict is updated in place so that after the call its `temperature` entry
reads `max(0.01, temperature)`; on every other route the caller's dict is
returned untouched. -/
theorem c10_model_kwargs_mutation (kw : List (String × PyVal)) :
    (∀ name q, name ∈ HuggingfaceChat.SUPPORTED_LLM_NAMES →
      kw.lookup "temperature" = some (.num q) →
      (get_llm name kw).2 = dictSet kw "temperature" (.num (max (mkRat 1 100) q))) ∧
    (∀ name, name ∉ HuggingfaceChat.SUPPORTED_LLM_NAMES →
      (get_llm name kw).2 = kw) := by
  constructor
  · intro name q hname htemp
    simp only [HuggingfaceChat.SUPPORTED_LLM_NAMES, List.mem_cons,
      List.mem_singleton, List.not_mem_nil, or_false] at hname
    rcases hname with rfl | rfl | rfl <;>
      simp [get_llm, htemp, AnthropicChat.SUPPORTED_LLM_NAMES, LLMChat.SUPPORTED_LLM_NAMES,
        GeminiChat.SUPPORTED_LLM_NAMES, HuggingfaceChat.SUPPORTED_LLM_NAMES]
  · intro name hname
    unfold get_llm
    by_cases h1 : name ∈ AnthropicChat.SUPPORTED_LLM_NAMES
    · rw [if_pos h1]
    · rw [if_neg h1]
      by_cases h2 : name ∈ GeminiChat.SUPPORTED_LLM_NAMES
      · rw [if_pos h2]
      · rw [if_neg h2, if_neg hname]

/-- Witness for C10: at temperature `0` on a local-runtime route the
caller's dict is mutated to `0.01` with its other entry untouched, and on
a Gemini route the dict is returned unchanged. -/
theorem c10_model_kwargs_mutation_witness :
    (get_llm "meta-llama/Llama-3.2-3B-Instruct"
        [("temperature", .num (mkRat 0 1)), ("seed", .num (mkRat 0 1))]).2 =
      [("temperature", .num (mkRat 1 100)), ("seed", .num (mkRat 0 1))] ∧
    (get_llm "gemini-1.5-flash-002"
        [("temperature", .num (mkRat 0 1))]).2 =
      [("temperature", .num (mkRat 0 1))] := by
  constructor
  · exact ((c10_model_kwargs_mutation
      [("temperature", .num (mkRat 0 1)), ("seed", .num (mkRat 0 1))]).1
      "meta-llama/Llama-3.2-3B-Instruct" (mkRat 0 1) (by decide) rfl).trans (by rfl)
  · exact (c10_model_kwargs_mutation [("temperature", .num (mkRat 0 1))]).2
      "gemini-1.5-flash-002" (by decide)

/-- Witness for C3 at the example conversation. -/
theorem c3_common_block_conversion_witness :
    CommonLLMChat.convert_conv_to_api_format exampleConv =
      [⟨.user, [.text "Hello!"]⟩,
       ⟨.user, [.image_url "data:image/jpeg;base64,/9j/"]⟩] ∧
    apiTextItems (CommonLLMChat.convert_conv_to_api_format exampleConv) =
      exampleConv.textItems :=
  ⟨c3_common_block_conversion.2.1, c3_common_block_conversion.2.2 exampleConv⟩

/-- Witness for C6 at a concrete session holding the example
conversation. -/
theorem c6_save_load_round_trip_witness :
    ChatSession.load_from_path
        (ChatSession.save_to_path ⟨"gpt-4o-2024-11-20", [], exampleConv⟩) =
      .ok ⟨"gpt-4o-2024-11-20", [], exampleConv⟩ :=
  c6_save_load_round_trip ⟨"gpt-4o-2024-11-20", [], exampleConv⟩
